import Mathlib

/-!
# Verification of the ESRGAN_Upscale batch resizer (`resize.py`)

Shallow embedding of the two core algorithms of `resize.py`:

* `_calculate_target_size` (the dimension planner): given a resize mode,
  the configured `max_size_px` bound and the source width/height, compute
  the target `(new_width, new_height)` pair.  Python's float arithmetic
  (`aspect_ratio = width / height`, `int(...)`) is modelled by exact
  rational arithmetic with truncation toward zero (`int()` truncates
  toward zero in Python).
* `_resize_to_max_dimensions`: resample toward the planned target only
  when the source strictly exceeds the target in some axis.
* `_reduce_file_size_and_save` (the size-constrained encoder): save at
  quality 95, 90, ... and stop at the first quality whose byte size fits
  the `max_size_mb * 1024 * 1024` budget, raising once quality drops
  below 20.  The JPEG codec is abstracted as a function
  `encSize : quality → byte length`, and the disk writes performed by the
  loop are recorded as the list of qualities written, in order.
* `process_image`: the per-image driver, including the skip-existing
  branch and the delete-input bookkeeping; the fallible decode / resize /
  save steps are abstracted as `Option`-valued stages.
-/

namespace Resize

/-- `ResizeMode` from `resize.py` (an `Enum` with four members). -/
inductive ResizeMode where
  | LONGEST_EDGE
  | SHORTEST_EDGE
  | WIDTH
  | HEIGHT
deriving DecidableEq, Repr

open ResizeMode

/-- Python's `int()` applied to a (real-valued) quantity: truncation toward
zero, i.e. ceiling for negative values and floor for nonnegative ones. -/
def pyInt (q : ℚ) : ℤ := if q < 0 then ⌈q⌉ else ⌊q⌋

/-- `Resize._calculate_target_size(self, width, height)`.

Source (`src/resize.py:116-141`):
```
aspect_ratio = width / height
max_size = self.max_size_px
if self.resize_mode == ResizeMode.LONGEST_EDGE:
    if width > height:
        new_width = max_size
        new_height = int(new_width / aspect_ratio)
    else:
        new_height = max_size
        new_width = int(new_height * aspect_ratio)
elif self.resize_mode == ResizeMode.SHORTEST_EDGE:
    if width < height:
        new_width = max_size
        new_height = int(new_width / aspect_ratio)
    else:
        new_height = max_size
        new_width = int(new_height * aspect_ratio)
elif self.resize_mode == ResizeMode.WIDTH:
    new_width = max_size
    new_height = int(new_width / aspect_ratio)
else:  # ResizeMode.HEIGHT
    new_height = max_size
    new_width = int(new_height * aspect_ratio)
return (new_width, new_height)
```
`width / height` (Python float division) is modelled as exact division in
`ℚ`; `int(...)` as `pyInt`.  The result is the `(new_width, new_height)`
pair. -/
def calculateTargetSize (mode : ResizeMode) (maxSize : ℤ) (width height : ℕ) : ℤ × ℤ :=
  let aspectRatio : ℚ := (width : ℚ) / (height : ℚ)
  match mode with
  | LONGEST_EDGE =>
      if width > height then
        (maxSize, pyInt ((maxSize : ℚ) / aspectRatio))
      else
        (pyInt ((maxSize : ℚ) * aspectRatio), maxSize)
  | SHORTEST_EDGE =>
      if width < height then
        (maxSize, pyInt ((maxSize : ℚ) / aspectRatio))
      else
        (pyInt ((maxSize : ℚ) * aspectRatio), maxSize)
  | WIDTH => (maxSize, pyInt ((maxSize : ℚ) / aspectRatio))
  | HEIGHT => (pyInt ((maxSize : ℚ) * aspectRatio), maxSize)

/-- `Resize._resize_to_max_dimensions` applied to an image abstracted by
its pixel dimensions: it either returns the image unresized
(`.original`) or resamples it toward the planned target
(`.resampled target`). -/
inductive ResizeResult where
  | original
  | resampled (target : ℤ × ℤ)
deriving DecidableEq, Repr

/-- `Resize._resize_to_max_dimensions(self, image)`.

Source (`src/resize.py:108-114`):
```
width, height = image.size
target_size = self._calculate_target_size(width, height)
if width > target_size[0] or height > target_size[1]:
    return image.resize(target_size, Image.LANCZOS)
return image
```
The pixel content plays no role in the branching, so the image is
abstracted by its `(width, height)`. -/
def resizeToMaxDimensions (mode : ResizeMode) (maxSize : ℤ) (width height : ℕ) :
    ResizeResult :=
  let targetSize := calculateTargetSize mode maxSize width height
  if (width : ℤ) > targetSize.1 ∨ (height : ℤ) > targetSize.2 then
    .resampled targetSize
  else
    .original

/-- The loop body of `Resize._reduce_file_size_and_save`.

Source (`src/resize.py:143-151`):
```
quality = 95
while True:
    image.save(output_path, format="JPEG", quality=quality)
    if output_path.stat().st_size <= self.max_size_mb * 1024 * 1024:
        break
    quality -= 5
    if quality < 20:
        raise ValueError("Cannot reduce file size to the desired size.")
```
`encSize q` is the byte length the JPEG codec produces for the given
image at quality `q` (`output_path.stat().st_size` after
`image.save(..., quality=q)`); `maxSizeMb` is the float `self.max_size_mb`
modelled as a rational.  The returned pair is the result of the loop
(`some q` = normal exit at quality `q`, `none` = the `ValueError`) and
the list of qualities at which `image.save` wrote the output file, in
program order. -/
def saveLoop (encSize : ℕ → ℕ) (maxSizeMb : ℚ) (quality : ℕ) (writes : List ℕ) :
    Option ℕ × List ℕ :=
  if (encSize quality : ℚ) ≤ maxSizeMb * 1024 * 1024 then
    (some quality, writes ++ [quality])
  else if _h : quality - 5 < 20 then
    (none, writes ++ [quality])
  else
    saveLoop encSize maxSizeMb (quality - 5) (writes ++ [quality])
termination_by quality
decreasing_by omega

/-- `Resize._reduce_file_size_and_save(self, image, output_path)`:
the loop entered with `quality = 95` and no writes performed yet. -/
def reduceFileSizeAndSave (encSize : ℕ → ℕ) (maxSizeMb : ℚ) : Option ℕ × List ℕ :=
  saveLoop encSize maxSizeMb 95 []

/-- The budget check of the loop, as a Boolean: does the encoding at
quality `q` fit within `maxSizeMb * 1024 * 1024` bytes? -/
def fitsBudget (encSize : ℕ → ℕ) (maxSizeMb : ℚ) (q : ℕ) : Bool :=
  (encSize q : ℚ) ≤ maxSizeMb * 1024 * 1024

/-- The sequence of quality values the loop would visit starting from
`quality` if no encoding ever fit the budget: `quality`, then
`quality - 5`, ..., stopping once the next decrement would drop below
20. -/
def qualitySeq (quality : ℕ) : List ℕ :=
  if _h : quality - 5 < 20 then [quality] else quality :: qualitySeq (quality - 5)
termination_by quality
decreasing_by omega

/-- The attempts actually performed when searching `l` for the first
element satisfying `p`: all the failing elements up to and including the
first success, if any, otherwise all of `l`. -/
def attemptsOf (p : ℕ → Bool) (l : List ℕ) : List ℕ :=
  l.takeWhile (fun x => ! p x) ++ (l.find? p).toList

/-- Observable outcome of `Resize.process_image` for one image:
whether the output was successfully resized and saved, whether the input
file was deleted (`img_path.unlink`), whether the `except` branch logged
an error, and whether the skip-existing branch was taken. -/
structure ProcessOutcome where
  saved : Bool
  inputDeleted : Bool
  errorLogged : Bool
  skipped : Bool
deriving DecidableEq, Repr

/-- `Resize.process_image(self, img_path, idx, total)`, the per-image
driver (`src/resize.py:82-106`), with the fallible steps abstracted:
`decode` models `Image.open(img_path).convert("RGB")` (`none` = raises),
`resizeStep` models `self._resize_to_max_dimensions` (`none` = raises),
`save` models `self._reduce_file_size_and_save` (`none` = raises, e.g.
the `ValueError` when the budget is unreachable).

```
if self.skip_existing and img_output_path.is_file():
    self.log.warning("Already exists, skipping")
    if self.delete_input:
        img_path.unlink(missing_ok=True)
    return
try:
    image = Image.open(img_path).convert("RGB")
    resized_image = self._resize_to_max_dimensions(image)
    self._reduce_file_size_and_save(resized_image, img_output_path)
    if self.delete_input:
        img_path.unlink(missing_ok=True)
    self.log.info(...)
except Exception as e:
    self.log.error(...)
```
-/
def processImage {α β : Type} (skipExisting deleteInput outputExists : Bool)
    (decode : Option α) (resizeStep : α → Option β) (save : β → Option Unit) :
    ProcessOutcome :=
  if skipExisting && outputExists then
    { saved := false, inputDeleted := deleteInput, errorLogged := false, skipped := true }
  else
    match decode with
    | none => { saved := false, inputDeleted := false, errorLogged := true, skipped := false }
    | some image =>
      match resizeStep image with
      | none => { saved := false, inputDeleted := false, errorLogged := true, skipped := false }
      | some resizedImage =>
        match save resizedImage with
        | none => { saved := false, inputDeleted := false, errorLogged := true, skipped := false }
        | some _ =>
          { saved := true, inputDeleted := deleteInput, errorLogged := false, skipped := false }

/-- The governing axis of each resize mode, read off the branch structure
of `_calculate_target_size`: the axis that is forced to `max_size`
(`LONGEST_EDGE` governs by the larger axis, with height taking the tie;
`SHORTEST_EDGE` by the smaller axis, with height taking the tie). -/
def governingDim (mode : ResizeMode) (width height : ℕ) : ℕ :=
  match mode with
  | .LONGEST_EDGE => max width height
  | .SHORTEST_EDGE => min width height
  | .WIDTH => width
  | .HEIGHT => height

/-- Property of a planner result `r` for a branch whose governing source
axis is `g` and whose other source axis is `o` (`govFirst` tells whether
the governing output component is the first of the pair): the governing
component equals the bound, and the non-governing component is
nonnegative and within one unit below the exactly scaled value
`bound * o / g` — aspect ratio preserved within one rounding unit, with
no clamping away from zero. -/
def nonGovSpec (r : ℤ × ℤ) (bound : ℤ) (o g : ℕ) (govFirst : Bool) : Prop :=
  if govFirst then
    r.1 = bound ∧ 0 ≤ r.2 ∧ ((bound : ℚ) * o / g) - 1 < (r.2 : ℚ)
      ∧ (r.2 : ℚ) ≤ (bound : ℚ) * o / g
  else
    r.2 = bound ∧ 0 ≤ r.1 ∧ ((bound : ℚ) * o / g) - 1 < (r.1 : ℚ)
      ∧ (r.1 : ℚ) ≤ (bound : ℚ) * o / g

theorem qualitySeq_cons (q : ℕ) :
    qualitySeq q = q :: (if q - 5 < 20 then [] else qualitySeq (q - 5)) := by
  rw [qualitySeq]
  split <;> simp_all

/-- Characterization of the save loop: starting at any quality, the loop
returns the first visited quality that fits the budget (`none` = the
`ValueError`), and it writes the file exactly at the failing visited
qualities followed by the first fitting one. -/
theorem saveLoop_spec (encSize : ℕ → ℕ) (maxSizeMb : ℚ) (q : ℕ) : ∀ ws : List ℕ,
    saveLoop encSize maxSizeMb q ws =
      ((qualitySeq q).find? (fitsBudget encSize maxSizeMb),
       ws ++ attemptsOf (fitsBudget encSize maxSizeMb) (qualitySeq q)) := by
  induction q using Nat.strong_induction_on with
  | _ q ih =>
    intro ws
    rw [saveLoop, qualitySeq_cons]
    by_cases hf : (encSize q : ℚ) ≤ maxSizeMb * 1024 * 1024
    · simp [hf, attemptsOf, fitsBudget]
    · by_cases h20 : q - 5 < 20
      · simp [hf, h20, attemptsOf, fitsBudget]
      · have hlt : q - 5 < q := by omega
        rw [if_neg hf, dif_neg h20, if_neg h20, ih (q - 5) hlt (ws ++ [q])]
        simp [attemptsOf, fitsBudget, hf]

/-- The quality values visited when starting from 95: sixteen values,
95 down to 20 in steps of 5. -/
theorem qualitySeq_95 :
    qualitySeq 95 =
      [95, 90, 85, 80, 75, 70, 65, 60, 55, 50, 45, 40, 35, 30, 25, 20] := by
  simp [qualitySeq]

/-- `_reduce_file_size_and_save` characterized: the result is the first
quality among 95, 90, ..., 20 whose encoding fits the budget (or `none`,
the `ValueError`), and the writes are all the failing qualities followed
by that first fitting one. -/
theorem reduceFileSizeAndSave_spec (encSize : ℕ → ℕ) (maxSizeMb : ℚ) :
    reduceFileSizeAndSave encSize maxSizeMb =
      ((qualitySeq 95).find? (fitsBudget encSize maxSizeMb),
       attemptsOf (fitsBudget encSize maxSizeMb) (qualitySeq 95)) := by
  rw [reduceFileSizeAndSave, saveLoop_spec]
  simp

theorem pyInt_of_nonneg {q : ℚ} (h : 0 ≤ q) : pyInt q = ⌊q⌋ := by
  rw [pyInt, if_neg (not_lt.2 h)]

theorem pyInt_intCast (z : ℤ) : pyInt (z : ℚ) = z := by
  rw [pyInt]
  split <;> simp

/-- `attemptsOf p l` is always a prefix of `l`. -/
theorem attemptsOf_isPre (p : ℕ → Bool) : ∀ l : List ℕ, attemptsOf p l <+: l := by
  intro l
  induction l with
  | nil => simp [attemptsOf]
  | cons x xs ih =>
    by_cases hx : p x
    · refine ⟨xs, ?_⟩
      simp [attemptsOf, hx]
    · obtain ⟨t, ht⟩ := ih
      refine ⟨t, ?_⟩
      simp only [attemptsOf, List.takeWhile_cons, hx, Bool.not_false, List.find?_cons,
        cond_eq_if, if_neg hx, List.cons_append]
      simpa [attemptsOf] using ht

theorem find?_none_iff (p : ℕ → Bool) (l : List ℕ) :
    l.find? p = none ↔ ∀ q ∈ l, p q = false := by
  rw [List.find?_eq_none]
  simp

theorem attemptsOf_of_none {p : ℕ → Bool} {l : List ℕ} (h : l.find? p = none) :
    attemptsOf p l = l := by
  rw [attemptsOf, h, Option.toList_none, List.append_nil, List.takeWhile_eq_self_iff]
  intro x hx
  have := (find?_none_iff p l).1 h x hx
  simp [this]

end Resize

namespace Resize

set_option maxRecDepth 4000

/-- C1 (counterexample): the claim bounds the search by 15 encode
attempts, but when no quality fits the budget the loop encodes at all
sixteen qualities 95, 90, ..., 20 before raising.  Concrete input: an
image whose encoding is 2 bytes at every quality and a byte budget of 1
(`max_size_mb = 1/1048576`). -/
theorem sixteen_attempts_cex :
    (reduceFileSizeAndSave (fun _ => 2) (1 / 1048576)).2.length = 16 ∧
      ¬ (reduceFileSizeAndSave (fun _ => 2) (1 / 1048576)).2.length ≤ 15 := by
  rw [reduceFileSizeAndSave_spec, qualitySeq_95]
  norm_num [attemptsOf, fitsBudget]

/-- C1 (amended): for every pixel buffer (abstracted as its per-quality
encoded size `encSize`) and every budget, the size-constrained encode
tries qualities in strictly decreasing order starting at 95 with step 5
— its attempts form a prefix of `[95, 90, ..., 20]` — returns success
exactly at the first (highest) quality whose encoded length fits the
budget, fails (the `ValueError`, i.e. `BudgetUnreachable`) exactly when
no quality from 95 down to 20 fits, and always terminates after at most
sixteen (not fifteen) encode attempts. -/
theorem quality_search_characterization (encSize : ℕ → ℕ) (maxSizeMb : ℚ) :
    (reduceFileSizeAndSave encSize maxSizeMb).1 =
        ([95, 90, 85, 80, 75, 70, 65, 60, 55, 50, 45, 40, 35, 30, 25, 20].find?
          (fitsBudget encSize maxSizeMb))
    ∧ (reduceFileSizeAndSave encSize maxSizeMb).2 <+:
        [95, 90, 85, 80, 75, 70, 65, 60, 55, 50, 45, 40, 35, 30, 25, 20]
    ∧ (reduceFileSizeAndSave encSize maxSizeMb).2.length ≤ 16
    ∧ ((reduceFileSizeAndSave encSize maxSizeMb).1 = none ↔
        ∀ q ∈ [95, 90, 85, 80, 75, 70, 65, 60, 55, 50, 45, 40, 35, 30, 25, 20],
          fitsBudget encSize maxSizeMb q = false) := by
  have hs := reduceFileSizeAndSave_spec encSize maxSizeMb
  rw [qualitySeq_95] at hs
  have hpre := attemptsOf_isPre (fitsBudget encSize maxSizeMb)
      [95, 90, 85, 80, 75, 70, 65, 60, 55, 50, 45, 40, 35, 30, 25, 20]
  refine ⟨by rw [hs], by rw [hs]; exact hpre, ?_, by rw [hs]; exact find?_none_iff _ _⟩
  rw [hs]
  dsimp only
  obtain ⟨t, ht⟩ := hpre
  have hlen := congrArg List.length ht
  simp only [List.length_append] at hlen
  simp only [List.length_cons, List.length_nil] at hlen
  omega

/-- C2 (counterexample): the claim says a `BudgetUnreachable` outcome
performs no filesystem write and that the output is written only after
the budget check succeeds; in the code `image.save` writes the output
file before every budget check, so when no quality fits (encoded size 2
bytes at every quality, budget 1 byte) the failing run has written the
file sixteen times, the last write (at quality 20) remaining at the
destination. -/
theorem write_before_check_cex :
    reduceFileSizeAndSave (fun _ => 2) (1 / 1048576) =
        (none, [95, 90, 85, 80, 75, 70, 65, 60, 55, 50, 45, 40, 35, 30, 25, 20])
    ∧ (reduceFileSizeAndSave (fun _ => 2) (1 / 1048576)).2 ≠ [] := by
  rw [reduceFileSizeAndSave_spec, qualitySeq_95]
  norm_num [attemptsOf, fitsBudget]
  decide

/-- C2 (amended): the output file is written at every attempted quality
before the corresponding budget check, so whenever the search fails with
`BudgetUnreachable` the file has been written at all sixteen qualities
95, 90, ..., 20, and the last write — the (over-budget) encoding at the
floor quality 20 — is left at the destination path. -/
theorem failure_writes_all_qualities (encSize : ℕ → ℕ) (maxSizeMb : ℚ)
    (h : (reduceFileSizeAndSave encSize maxSizeMb).1 = none) :
    (reduceFileSizeAndSave encSize maxSizeMb).2 =
      [95, 90, 85, 80, 75, 70, 65, 60, 55, 50, 45, 40, 35, 30, 25, 20] := by
  have hs := reduceFileSizeAndSave_spec encSize maxSizeMb
  rw [qualitySeq_95] at hs
  rw [hs] at h ⊢
  exact attemptsOf_of_none h

/-- C2 (witness): a run in which every encoding is 3 bytes against a
2-byte budget fails and has written the file at all sixteen
qualities. -/
theorem failure_writes_all_qualities_witness :
    (reduceFileSizeAndSave (fun _ => 3) (2 / 1048576)).1 = none ∧
      (reduceFileSizeAndSave (fun _ => 3) (2 / 1048576)).2 =
        [95, 90, 85, 80, 75, 70, 65, 60, 55, 50, 45, 40, 35, 30, 25, 20] := by
  have h : (reduceFileSizeAndSave (fun _ => 3) (2 / 1048576)).1 = none := by
    rw [reduceFileSizeAndSave_spec, qualitySeq_95]
    norm_num [fitsBudget]
  exact ⟨h, failure_writes_all_qualities _ _ h⟩

/-- C5: `_calculate_target_size` reproduces the spec's worked examples:
a 100×100 source under `LONGEST_EDGE` with bound 50 gives 50×50, a
200×100 source gives 50×25, and a 100×200 source under `SHORTEST_EDGE`
with bound 50 gives 50×100. -/
theorem worked_examples :
    calculateTargetSize .LONGEST_EDGE 50 100 100 = (50, 50)
    ∧ calculateTargetSize .LONGEST_EDGE 50 200 100 = (50, 25)
    ∧ calculateTargetSize .SHORTEST_EDGE 50 100 200 = (50, 100) := by
  norm_num [calculateTargetSize, pyInt]

/-- C4 (counterexample): the claim says a bound ≤ 0 fails with an
`InvalidBound` error, but `_calculate_target_size` performs no bound
validation: with bound 0 on a 100×100 source it returns the pair
`(0, 0)`, and with bound −7 on a 100×50 source it returns `(-7, -3)`
(Python `int()` truncating −3.5 toward zero). -/
theorem no_invalid_bound_cex :
    calculateTargetSize .LONGEST_EDGE 0 100 100 = (0, 0)
    ∧ calculateTargetSize .WIDTH (-7) 100 50 = (-7, -3) := by
  norm_num [calculateTargetSize, pyInt]
  rw [Int.ceil_eq_iff]
  constructor <;> norm_num

/-- C4 (amended): for every bound ≤ 0 the planner does not fail — there
is no `InvalidBound` error path in the code — and instead returns a pair
whose governing component equals the nonpositive bound. -/
theorem nonpositive_bound_returned (mode : ResizeMode) (width height : ℕ)
    (bound : ℤ) (h : bound ≤ 0) :
    ((calculateTargetSize mode bound width height).1 = bound
        ∧ (calculateTargetSize mode bound width height).1 ≤ 0)
    ∨ ((calculateTargetSize mode bound width height).2 = bound
        ∧ (calculateTargetSize mode bound width height).2 ≤ 0) := by
  rcases mode with _ | _ | _ | _ <;> simp only [calculateTargetSize]
  · by_cases hwh : width > height
    · rw [if_pos hwh]; exact Or.inl ⟨rfl, h⟩
    · rw [if_neg hwh]; exact Or.inr ⟨rfl, h⟩
  · by_cases hwh : width < height
    · rw [if_pos hwh]; exact Or.inl ⟨rfl, h⟩
    · rw [if_neg hwh]; exact Or.inr ⟨rfl, h⟩
  · exact Or.inl ⟨trivial, h⟩
  · exact Or.inr ⟨trivial, h⟩

/-- C4 (witness): at bound −3 on a 10×20 source under `HEIGHT`, the
planner returns a value whose governing component is −3 ≤ 0. -/
theorem nonpositive_bound_returned_witness :
    (-3 : ℤ) ≤ 0 ∧
      (((calculateTargetSize .HEIGHT (-3) 10 20).1 = -3
          ∧ (calculateTargetSize .HEIGHT (-3) 10 20).1 ≤ 0)
        ∨ ((calculateTargetSize .HEIGHT (-3) 10 20).2 = -3
          ∧ (calculateTargetSize .HEIGHT (-3) 10 20).2 ≤ 0)) :=
  ⟨by norm_num, nonpositive_bound_returned .HEIGHT 10 20 (-3) (by norm_num)⟩

/-- C9: if the encoding at the start quality 95 already fits the budget,
the search succeeds at quality 95 on the first attempt: exactly one
encode (a single write, at quality 95) and no quality downgrade. -/
theorem first_attempt_success (encSize : ℕ → ℕ) (maxSizeMb : ℚ)
    (h : (encSize 95 : ℚ) ≤ maxSizeMb * 1024 * 1024) :
    reduceFileSizeAndSave encSize maxSizeMb = (some 95, [95]) := by
  have hp : fitsBudget encSize maxSizeMb 95 = true := by
    simp [fitsBudget, h]
  rw [reduceFileSizeAndSave_spec, qualitySeq_95]
  simp [attemptsOf, hp]

/-- C9 (witness): an image every encoding of which is 0 bytes fits a
1 MB budget at quality 95 at once. -/
theorem first_attempt_success_witness :
    (((fun _ => 0 : ℕ → ℕ) 95 : ℚ) ≤ 1 * 1024 * 1024 ∧
      reduceFileSizeAndSave (fun _ => 0) 1 = (some 95, [95])) :=
  ⟨by norm_num, first_attempt_success (fun _ => 0) 1 (by norm_num)⟩

end Resize

namespace Resize

theorem pyInt_div_aspect (bound : ℤ) (g o : ℕ) (hb : 0 ≤ bound) :
    pyInt ((bound : ℚ) / ((g : ℚ) / (o : ℚ))) = ⌊(bound : ℚ) * o / g⌋ := by
  rw [div_div_eq_mul_div, pyInt_of_nonneg]
  have hb' : (0 : ℚ) ≤ (bound : ℚ) := by exact_mod_cast hb
  exact div_nonneg (mul_nonneg hb' (Nat.cast_nonneg _)) (Nat.cast_nonneg _)

theorem pyInt_mul_aspect (bound : ℤ) (o g : ℕ) (hb : 0 ≤ bound) :
    pyInt ((bound : ℚ) * ((o : ℚ) / (g : ℚ))) = ⌊(bound : ℚ) * o / g⌋ := by
  rw [← mul_div_assoc, pyInt_of_nonneg]
  have hb' : (0 : ℚ) ≤ (bound : ℚ) := by exact_mod_cast hb
  exact div_nonneg (mul_nonneg hb' (Nat.cast_nonneg _)) (Nat.cast_nonneg _)

theorem floor_scaled_bounds (bound : ℤ) (o g : ℕ) (hb : 0 ≤ bound) :
    0 ≤ ⌊(bound : ℚ) * o / g⌋
    ∧ ((bound : ℚ) * o / g) - 1 < (⌊(bound : ℚ) * o / g⌋ : ℚ)
    ∧ (⌊(bound : ℚ) * o / g⌋ : ℚ) ≤ (bound : ℚ) * o / g := by
  have hb' : (0 : ℚ) ≤ (bound : ℚ) := by exact_mod_cast hb
  have hx : (0 : ℚ) ≤ (bound : ℚ) * o / g :=
    div_nonneg (mul_nonneg hb' (Nat.cast_nonneg _)) (Nat.cast_nonneg _)
  exact ⟨Int.floor_nonneg.2 hx, Int.sub_one_lt_floor _, Int.floor_le _⟩

theorem other_axis_ge (bound : ℤ) (o g : ℕ) (hg : 1 ≤ g) (hb : (g : ℤ) ≤ bound) :
    (o : ℤ) ≤ ⌊(bound : ℚ) * o / g⌋ := by
  rw [Int.le_floor]
  have hgpos : (0 : ℚ) < (g : ℚ) := by exact_mod_cast hg
  rw [le_div_iff hgpos]
  have hgb : (g : ℚ) ≤ (bound : ℚ) := by exact_mod_cast hb
  push_cast
  nlinarith [(by positivity : (0 : ℚ) ≤ (o : ℚ))]

theorem nonGov_div (bound : ℤ) (o g : ℕ) (hb : 0 ≤ bound) :
    nonGovSpec (bound, pyInt ((bound : ℚ) / ((g : ℚ) / (o : ℚ)))) bound o g true := by
  rw [nonGovSpec, if_pos rfl, pyInt_div_aspect bound g o hb]
  obtain ⟨h1, h2, h3⟩ := floor_scaled_bounds bound o g hb
  exact ⟨rfl, h1, h2, h3⟩

theorem nonGov_mul (bound : ℤ) (o g : ℕ) (hb : 0 ≤ bound) :
    nonGovSpec (pyInt ((bound : ℚ) * ((o : ℚ) / (g : ℚ))), bound) bound o g false := by
  rw [nonGovSpec, if_neg (by simp), pyInt_mul_aspect bound o g hb]
  obtain ⟨h1, h2, h3⟩ := floor_scaled_bounds bound o g hb
  exact ⟨rfl, h1, h2, h3⟩

/-- C3 (counterexample): the claim says both output components are ≥ 1
(a non-governing dimension that rounds to 0 being clamped to 1), but the
code has no clamp: a 1×100 source under `LONGEST_EDGE` with bound 50
yields width `int(50 * 1/100) = 0`. -/
theorem planner_zero_dimension_cex :
    calculateTargetSize .LONGEST_EDGE 50 1 100 = (0, 50)
    ∧ ¬ (1 ≤ (calculateTargetSize .LONGEST_EDGE 50 1 100).1) := by
  norm_num [calculateTargetSize, pyInt]

/-- C3 (amended): for every source with both axes ≥ 1 and every bound
≥ 1, under each policy the governing output component equals the bound
and the non-governing component is the truncation of the exactly scaled
value: it is nonnegative and preserves the aspect ratio within one
rounding unit, but it is not clamped to 1 — it is 0 whenever the scaled
value is below 1. -/
theorem planner_no_clamp (width height : ℕ) (bound : ℤ)
    (hw : 1 ≤ width) (hh : 1 ≤ height) (hb : 1 ≤ bound) :
    nonGovSpec (calculateTargetSize .WIDTH bound width height) bound height width true
    ∧ nonGovSpec (calculateTargetSize .HEIGHT bound width height) bound width height false
    ∧ (width > height →
        nonGovSpec (calculateTargetSize .LONGEST_EDGE bound width height) bound height width true)
    ∧ (¬ width > height →
        nonGovSpec (calculateTargetSize .LONGEST_EDGE bound width height) bound width height false)
    ∧ (width < height →
        nonGovSpec (calculateTargetSize .SHORTEST_EDGE bound width height) bound height width true)
    ∧ (¬ width < height →
        nonGovSpec (calculateTargetSize .SHORTEST_EDGE bound width height) bound width height false) := by
  have hb0 : (0 : ℤ) ≤ bound := by omega
  refine ⟨?_, ?_, fun hwh => ?_, fun hwh => ?_, fun hwh => ?_, fun hwh => ?_⟩
  · exact nonGov_div bound height width hb0
  · exact nonGov_mul bound width height hb0
  · have h1 : calculateTargetSize .LONGEST_EDGE bound width height =
        (bound, pyInt ((bound : ℚ) / ((width : ℚ) / (height : ℚ)))) := by
      simp [calculateTargetSize, hwh]
    rw [h1]
    exact nonGov_div bound height width hb0
  · have h1 : calculateTargetSize .LONGEST_EDGE bound width height =
        (pyInt ((bound : ℚ) * ((width : ℚ) / (height : ℚ))), bound) := by
      simp [calculateTargetSize, hwh]
    rw [h1]
    exact nonGov_mul bound width height hb0
  · have h1 : calculateTargetSize .SHORTEST_EDGE bound width height =
        (bound, pyInt ((bound : ℚ) / ((width : ℚ) / (height : ℚ)))) := by
      simp [calculateTargetSize, hwh]
    rw [h1]
    exact nonGov_div bound height width hb0
  · have h1 : calculateTargetSize .SHORTEST_EDGE bound width height =
        (pyInt ((bound : ℚ) * ((width : ℚ) / (height : ℚ))), bound) := by
      simp [calculateTargetSize, hwh]
    rw [h1]
    exact nonGov_mul bound width height hb0

/-- C3 (witness): the amended property at the 5×2 source with bound 3. -/
theorem planner_no_clamp_witness :
    (1 ≤ 5 ∧ 1 ≤ 2 ∧ (1 : ℤ) ≤ 3) ∧
      (nonGovSpec (calculateTargetSize .WIDTH 3 5 2) 3 2 5 true
        ∧ nonGovSpec (calculateTargetSize .HEIGHT 3 5 2) 3 5 2 false
        ∧ (5 > 2 → nonGovSpec (calculateTargetSize .LONGEST_EDGE 3 5 2) 3 2 5 true)
        ∧ (¬ 5 > 2 → nonGovSpec (calculateTargetSize .LONGEST_EDGE 3 5 2) 3 5 2 false)
        ∧ (5 < 2 → nonGovSpec (calculateTargetSize .SHORTEST_EDGE 3 5 2) 3 2 5 true)
        ∧ (¬ 5 < 2 → nonGovSpec (calculateTargetSize .SHORTEST_EDGE 3 5 2) 3 5 2 false)) :=
  ⟨⟨by norm_num, by norm_num, by norm_num⟩,
    planner_no_clamp 5 2 3 (by norm_num) (by norm_num) (by norm_num)⟩

/-- C6: for a square source (width = height) and a positive bound, both
`LONGEST_EDGE` and `SHORTEST_EDGE` return `(bound, bound)`, which
coincides with the result of taking width as the governing axis (width
set to the bound, height the rounding of the bound scaled by the unit
aspect ratio). -/
theorem square_tie_break (width : ℕ) (bound : ℤ) (hw : 1 ≤ width) (hb : 0 < bound) :
    calculateTargetSize .LONGEST_EDGE bound width width = (bound, bound)
    ∧ calculateTargetSize .SHORTEST_EDGE bound width width = (bound, bound)
    ∧ (bound, pyInt ((bound : ℚ) / ((width : ℚ) / (width : ℚ)))) = (bound, bound) := by
  have hw0 : ((width : ℚ)) ≠ 0 := by
    have h1 : 0 < width := hw
    exact_mod_cast h1.ne'
  have haspect : (width : ℚ) / (width : ℚ) = 1 := div_self hw0
  refine ⟨?_, ?_, ?_⟩
  · simp [calculateTargetSize, haspect, pyInt_intCast]
  · simp [calculateTargetSize, haspect, pyInt_intCast]
  · rw [haspect, div_one, pyInt_intCast]

/-- C6 (witness): the square tie-break at a 7×7 source with bound 3. -/
theorem square_tie_break_witness :
    (1 ≤ 7 ∧ (0 : ℤ) < 3) ∧
      (calculateTargetSize .LONGEST_EDGE 3 7 7 = (3, 3)
        ∧ calculateTargetSize .SHORTEST_EDGE 3 7 7 = (3, 3)
        ∧ ((3 : ℤ), pyInt (((3 : ℤ) : ℚ) / (((7 : ℕ) : ℚ) / ((7 : ℕ) : ℚ)))) =
            ((3 : ℤ), (3 : ℤ))) :=
  ⟨⟨by norm_num, by norm_num⟩, square_tie_break 7 3 (by norm_num) (by norm_num)⟩

/-- C7: under every policy the non-governing output component is the
truncation toward zero of the exactly scaled value (for the nonnegative
values involved here, truncation toward zero is `⌊·⌋`): e.g. under
`WIDTH`, target height `= ⌊bound * height / width⌋`.  It is not
round-to-nearest: at a 3×2 source under `WIDTH` with bound 1 the code
yields height 0 while round-to-nearest of the scaled value `2/3` would
give 1. -/
theorem truncation_not_rounding (width height : ℕ) (bound : ℤ)
    (hw : 1 ≤ width) (hh : 1 ≤ height) (hb : 0 ≤ bound) :
    (calculateTargetSize .WIDTH bound width height).2 = ⌊(bound : ℚ) * height / width⌋
    ∧ (calculateTargetSize .HEIGHT bound width height).1 = ⌊(bound : ℚ) * width / height⌋
    ∧ (width > height →
        (calculateTargetSize .LONGEST_EDGE bound width height).2 =
          ⌊(bound : ℚ) * height / width⌋)
    ∧ (¬ width > height →
        (calculateTargetSize .LONGEST_EDGE bound width height).1 =
          ⌊(bound : ℚ) * width / height⌋)
    ∧ (width < height →
        (calculateTargetSize .SHORTEST_EDGE bound width height).2 =
          ⌊(bound : ℚ) * height / width⌋)
    ∧ (¬ width < height →
        (calculateTargetSize .SHORTEST_EDGE bound width height).1 =
          ⌊(bound : ℚ) * width / height⌋)
    ∧ (calculateTargetSize .WIDTH 1 3 2).2 = 0
    ∧ round ((1 : ℚ) * 2 / 3) = 1 := by
  refine ⟨?_, ?_, fun hwh => ?_, fun hwh => ?_, fun hwh => ?_, fun hwh => ?_, ?_, ?_⟩
  · exact pyInt_div_aspect bound width height hb
  · exact pyInt_mul_aspect bound width height hb
  · simp only [calculateTargetSize, if_pos hwh]
    exact pyInt_div_aspect bound width height hb
  · simp only [calculateTargetSize, if_neg hwh]
    exact pyInt_mul_aspect bound width height hb
  · simp only [calculateTargetSize, if_pos hwh]
    exact pyInt_div_aspect bound width height hb
  · simp only [calculateTargetSize, if_neg hwh]
    exact pyInt_mul_aspect bound width height hb
  · norm_num [calculateTargetSize, pyInt]
  · rw [round_eq]
    norm_num

/-- C7 (witness): the truncation property at a 3×2 source with bound 5. -/
theorem truncation_not_rounding_witness :
    (1 ≤ 3 ∧ 1 ≤ 2 ∧ (0 : ℤ) ≤ 5) ∧
      ((calculateTargetSize .WIDTH 5 3 2).2 = ⌊((5 : ℤ) : ℚ) * (2 : ℕ) / (3 : ℕ)⌋
        ∧ (calculateTargetSize .HEIGHT 5 3 2).1 = ⌊((5 : ℤ) : ℚ) * (3 : ℕ) / (2 : ℕ)⌋
        ∧ (3 > 2 →
            (calculateTargetSize .LONGEST_EDGE 5 3 2).2 = ⌊((5 : ℤ) : ℚ) * (2 : ℕ) / (3 : ℕ)⌋)
        ∧ (¬ 3 > 2 →
            (calculateTargetSize .LONGEST_EDGE 5 3 2).1 = ⌊((5 : ℤ) : ℚ) * (3 : ℕ) / (2 : ℕ)⌋)
        ∧ (3 < 2 →
            (calculateTargetSize .SHORTEST_EDGE 5 3 2).2 = ⌊((5 : ℤ) : ℚ) * (2 : ℕ) / (3 : ℕ)⌋)
        ∧ (¬ 3 < 2 →
            (calculateTargetSize .SHORTEST_EDGE 5 3 2).1 = ⌊((5 : ℤ) : ℚ) * (3 : ℕ) / (2 : ℕ)⌋)
        ∧ (calculateTargetSize .WIDTH 1 3 2).2 = 0
        ∧ round ((1 : ℚ) * 2 / 3) = 1) :=
  ⟨⟨by norm_num, by norm_num, by norm_num⟩,
    truncation_not_rounding 3 2 5 (by norm_num) (by norm_num) (by norm_num)⟩

end Resize

namespace Resize

/-- C8: the resize step never resamples unless the source strictly
exceeds the planned target in some axis: pass-through holds exactly when
neither axis of the source strictly exceeds the target, and in
particular whenever the bound is at least the source's governing axis
(the larger axis for `LONGEST_EDGE`, the smaller for `SHORTEST_EDGE`,
width for `WIDTH`, height for `HEIGHT`) the pixel data is returned
unresized. -/
theorem never_upsize (mode : ResizeMode) (width height : ℕ) (bound : ℤ)
    (hw : 1 ≤ width) (hh : 1 ≤ height) :
    (resizeToMaxDimensions mode bound width height = .original ↔
      ¬ ((width : ℤ) > (calculateTargetSize mode bound width height).1
        ∨ (height : ℤ) > (calculateTargetSize mode bound width height).2))
    ∧ ((governingDim mode width height : ℤ) ≤ bound →
        resizeToMaxDimensions mode bound width height = .original) := by
  constructor
  · simp only [resizeToMaxDimensions]
    split
    · rename_i hcond
      simp [hcond]
    · rename_i hcond
      simp [hcond]
  · intro hgov
    have hb0 : (0 : ℤ) ≤ bound := by
      have h1 : 1 ≤ governingDim mode width height := by
        rcases mode with _ | _ | _ | _ <;> simp [governingDim] <;> omega
      have h1' : (1 : ℤ) ≤ (governingDim mode width height : ℤ) := by exact_mod_cast h1
      omega
    have hpair : (width : ℤ) ≤ (calculateTargetSize mode bound width height).1
        ∧ (height : ℤ) ≤ (calculateTargetSize mode bound width height).2 := by
      rcases mode with _ | _ | _ | _
      · by_cases hwh : width > height
        · have hwb : ((width : ℕ) : ℤ) ≤ bound := by
            have : (governingDim .LONGEST_EDGE width height : ℤ) = (width : ℤ) := by
              simp [governingDim, max_eq_left (le_of_lt hwh)]
            omega
          have h1 : calculateTargetSize .LONGEST_EDGE bound width height =
              (bound, pyInt ((bound : ℚ) / ((width : ℚ) / (height : ℚ)))) := by
            simp [calculateTargetSize, hwh]
          rw [h1, pyInt_div_aspect bound width height hb0]
          exact ⟨hwb, other_axis_ge bound height width hw hwb⟩
        · have hhb : ((height : ℕ) : ℤ) ≤ bound := by
            have : (governingDim .LONGEST_EDGE width height : ℤ) = (height : ℤ) := by
              simp [governingDim, max_eq_right (le_of_not_lt hwh)]
            omega
          have h1 : calculateTargetSize .LONGEST_EDGE bound width height =
              (pyInt ((bound : ℚ) * ((width : ℚ) / (height : ℚ))), bound) := by
            simp [calculateTargetSize, hwh]
          rw [h1, pyInt_mul_aspect bound width height hb0]
          exact ⟨other_axis_ge bound width height hh hhb, hhb⟩
      · by_cases hwh : width < height
        · have hwb : ((width : ℕ) : ℤ) ≤ bound := by
            have : (governingDim .SHORTEST_EDGE width height : ℤ) = (width : ℤ) := by
              simp [governingDim, min_eq_left (le_of_lt hwh)]
            omega
          have h1 : calculateTargetSize .SHORTEST_EDGE bound width height =
              (bound, pyInt ((bound : ℚ) / ((width : ℚ) / (height : ℚ)))) := by
            simp [calculateTargetSize, hwh]
          rw [h1, pyInt_div_aspect bound width height hb0]
          exact ⟨hwb, other_axis_ge bound height width hw hwb⟩
        · have hhb : ((height : ℕ) : ℤ) ≤ bound := by
            have : (governingDim .SHORTEST_EDGE width height : ℤ) = (height : ℤ) := by
              simp [governingDim, min_eq_right (le_of_not_lt hwh)]
            omega
          have h1 : calculateTargetSize .SHORTEST_EDGE bound width height =
              (pyInt ((bound : ℚ) * ((width : ℚ) / (height : ℚ))), bound) := by
            simp [calculateTargetSize, hwh]
          rw [h1, pyInt_mul_aspect bound width height hb0]
          exact ⟨other_axis_ge bound width height hh hhb, hhb⟩
      · have hwb : ((width : ℕ) : ℤ) ≤ bound := by
          have : (governingDim .WIDTH width height : ℤ) = (width : ℤ) := by
            simp [governingDim]
          omega
        have h1 : calculateTargetSize .WIDTH bound width height =
            (bound, pyInt ((bound : ℚ) / ((width : ℚ) / (height : ℚ)))) := rfl
        rw [h1, pyInt_div_aspect bound width height hb0]
        exact ⟨hwb, other_axis_ge bound height width hw hwb⟩
      · have hhb : ((height : ℕ) : ℤ) ≤ bound := by
          have : (governingDim .HEIGHT width height : ℤ) = (height : ℤ) := by
            simp [governingDim]
          omega
        have h1 : calculateTargetSize .HEIGHT bound width height =
            (pyInt ((bound : ℚ) * ((width : ℚ) / (height : ℚ))), bound) := rfl
        rw [h1, pyInt_mul_aspect bound width height hb0]
        exact ⟨other_axis_ge bound width height hh hhb, hhb⟩
    simp only [resizeToMaxDimensions]
    rw [if_neg]
    push_neg
    exact hpair

/-- C8 (witness): a 2×3 source under `WIDTH` with bound 5 is returned
unresized. -/
theorem never_upsize_witness :
    (1 ≤ 2 ∧ 1 ≤ 3) ∧
      ((resizeToMaxDimensions .WIDTH 5 2 3 = .original ↔
          ¬ (((2 : ℕ) : ℤ) > (calculateTargetSize .WIDTH 5 2 3).1
            ∨ ((3 : ℕ) : ℤ) > (calculateTargetSize .WIDTH 5 2 3).2))
        ∧ ((governingDim .WIDTH 2 3 : ℤ) ≤ 5 →
            resizeToMaxDimensions .WIDTH 5 2 3 = .original)) :=
  ⟨⟨by norm_num, by norm_num⟩, never_upsize .WIDTH 2 3 5 (by norm_num) (by norm_num)⟩

/-- C10: when the skip-existing branch is not taken (the image is
actually processed), the input file is deleted exactly when the
`delete_input` flag is set and the whole decode → resize → save pipeline
succeeded; on any exception in decoding, resizing, or the
size-constrained save (including the `BudgetUnreachable` `ValueError`)
no deletion happens, so the input file is left in place. -/
theorem delete_input_only_after_save {α β : Type}
    (skipExisting deleteInput outputExists : Bool)
    (decode : Option α) (resizeStep : α → Option β) (save : β → Option Unit)
    (hskip : ¬ (skipExisting = true ∧ outputExists = true)) :
    ((processImage skipExisting deleteInput outputExists decode resizeStep save).saved =
        ((decode.bind resizeStep).bind save).isSome)
    ∧ ((processImage skipExisting deleteInput outputExists decode resizeStep save).inputDeleted =
        (deleteInput && ((decode.bind resizeStep).bind save).isSome))
    ∧ ((processImage skipExisting deleteInput outputExists decode resizeStep save).errorLogged =
        ! ((decode.bind resizeStep).bind save).isSome)
    ∧ ((processImage skipExisting deleteInput outputExists decode resizeStep save).inputDeleted
          = true →
        (processImage skipExisting deleteInput outputExists decode resizeStep save).saved
          = true) := by
  have hc : (skipExisting && outputExists) = false := by
    rcases skipExisting <;> rcases outputExists <;> simp_all
  rcases decode with _ | img
  · simp [processImage, hc]
  · rcases hres : resizeStep img with _ | rimg
    · simp [processImage, hc, hres]
    · rcases hsave : save rimg with _ | u
      · simp [processImage, hc, hres, hsave]
      · simp [processImage, hc, hres, hsave]

/-- C10 (witness): with `delete_input` set, a pipeline whose decode,
resize and save all succeed deletes the input, and the pipeline outcome
bookkeeping matches. -/
theorem delete_input_only_after_save_witness :
    (¬ ((false : Bool) = true ∧ (false : Bool) = true)) ∧
      (((processImage false true false (some 0) (fun n : ℕ => some n)
            (fun _ => some ())).saved =
          ((((some 0 : Option ℕ)).bind (fun n : ℕ => some n)).bind
            (fun _ => some ())).isSome)
        ∧ ((processImage false true false (some 0) (fun n : ℕ => some n)
              (fun _ => some ())).inputDeleted =
            (true && ((((some 0 : Option ℕ)).bind (fun n : ℕ => some n)).bind
              (fun _ => some ())).isSome))
        ∧ ((processImage false true false (some 0) (fun n : ℕ => some n)
              (fun _ => some ())).errorLogged =
            ! ((((some 0 : Option ℕ)).bind (fun n : ℕ => some n)).bind
              (fun _ => some ())).isSome)
        ∧ ((processImage false true false (some 0) (fun n : ℕ => some n)
              (fun _ => some ())).inputDeleted = true →
            (processImage false true false (some 0) (fun n : ℕ => some n)
              (fun _ => some ())).saved = true)) :=
  ⟨by simp, delete_input_only_after_save false true false (some 0) (fun n : ℕ => some n)
    (fun _ => some ()) (by simp)⟩

end Resize
